import Mathlib

/-!
Verification development for the sombra Python bindings
(`bindings/python/sombra/query.py` and `bindings/python/sombra/typed/db.py`).

The Python source is shallowly embedded: each Python function or method that
the properties below talk about is translated into an executable Lean
definition of the same name (Python leading underscores are kept where Lean
allows).  Python exceptions are modelled with `Except String`, dictionaries
with structures or inductive types, and the opaque native Engine with an
explicit function parameter; functions that call the Engine additionally
return the list of arguments they passed to it, so that "performs N Engine
calls" is a provable statement.  Machine integers do not occur: all Python
integers are unbounded and are modelled by `Int`.
-/

namespace Sombra

/-! ## Error taxonomy (`query.py` lines 19-153)

A `SombraError` subclass is identified by `ErrClass`; `base` is the
`SombraError` class itself.  A Python exception value is modelled by
`PyExc`: `sombra = none` means the exception is not a `SombraError`
(for example the `RuntimeError` raised by the native layer), and `code`
is the value of the `.code` attribute (meaningful only for Sombra errors).
-/

inductive ErrClass where
  | base
  | analyzer
  | json
  | io
  | corruption
  | conflict
  | snapshotTooOld
  | cancelled
  | invalidArg
  | notFound
  | closed
deriving DecidableEq, Repr

/-- The `.code` attribute each subclass constructor installs.  The plain
`SombraError(message)` constructor defaults to `UNKNOWN`. -/
def ErrClass.defaultCode : ErrClass → String
  | .base => "UNKNOWN"
  | .analyzer => "ANALYZER"
  | .json => "JSON"
  | .io => "IO"
  | .corruption => "CORRUPTION"
  | .conflict => "CONFLICT"
  | .snapshotTooOld => "SNAPSHOT_TOO_OLD"
  | .cancelled => "CANCELLED"
  | .invalidArg => "INVALID_ARG"
  | .notFound => "NOT_FOUND"
  | .closed => "CLOSED"

structure PyExc where
  sombra : Option ErrClass
  code : String
  message : String
deriving DecidableEq, Repr

/-- Build the exception `cls(message)` with the constructor-default code. -/
def mkErr (cls : ErrClass) (message : String) : PyExc :=
  ⟨some cls, cls.defaultCode, message⟩

/-- `_ERROR_CLASS_MAP.get(code, SombraError)` from `query.py` lines 114-127. -/
def _ERROR_CLASS_MAP (code : String) : ErrClass :=
  if code = "UNKNOWN" then .base
  else if code = "MESSAGE" then .base
  else if code = "ANALYZER" then .analyzer
  else if code = "JSON" then .json
  else if code = "IO" then .io
  else if code = "CORRUPTION" then .corruption
  else if code = "CONFLICT" then .conflict
  else if code = "SNAPSHOT_TOO_OLD" then .snapshotTooOld
  else if code = "CANCELLED" then .cancelled
  else if code = "INVALID_ARG" then .invalidArg
  else if code = "NOT_FOUND" then .notFound
  else if code = "CLOSED" then .closed
  else .base

/-- A character matched by the `[A-Z_]` class of `_ERROR_CODE_REGEX`. -/
def isCodeChar (c : Char) : Bool :=
  ('A' ≤ c && c ≤ 'Z') || c == '_'

/-- A character matched by the ASCII part of the `\s` class, which is
also the ASCII whitespace stripped by `str.strip()`. -/
def pyIsSpace (c : Char) : Bool :=
  c == ' ' || c == '\t' || c == '\n' || c == '\r' || c == '\x0b' || c == '\x0c'

/-- Python `str.strip()` (ASCII whitespace): drop leading and trailing
whitespace characters. -/
def pyStrip (s : String) : String :=
  String.mk (((s.data.dropWhile pyIsSpace).reverse.dropWhile pyIsSpace).reverse)

/-- `_ERROR_CODE_REGEX.match` over the message characters
(pattern `^\[([A-Z_]+)\]\s*`, `query.py` line 16).  On a match it returns
the captured code and the rest of the message with `match.end()` applied,
that is with the bracketed code and any following whitespace stripped. -/
def matchErrorCode : List Char → Option (String × String)
  | '[' :: rest =>
      let code := rest.takeWhile isCodeChar
      if code.isEmpty then none
      else
        match rest.drop code.length with
        | ']' :: tail => some (String.mk code, String.mk (tail.dropWhile pyIsSpace))
        | _ => none
  | _ => none

/-- `wrap_native_error` (`query.py` lines 130-153). -/
def wrap_native_error (err : PyExc) : PyExc :=
  let message := err.message
  match matchErrorCode message.data with
  | some (code, cleanMessage) => mkErr (_ERROR_CLASS_MAP code) cleanMessage
  | none =>
      match err.sombra with
      | some _ => err
      | none => ⟨some .base, "UNKNOWN", message⟩

/-! ## Literal encoder (`query.py` lines 247-279 and 1662-1671)

`PyVal` models the `LiteralInput` union
`Optional[Union[str, int, float, bool, datetime, bytes, bytearray, memoryview]]`.

An aware `datetime` denotes an absolute instant; `astimezone(timezone.utc)`
normalizes it without changing the instant, and aware datetimes compare by
instant, so a datetime is modelled by that instant in microseconds since the
Unix epoch (CPython datetimes have microsecond resolution) plus a flag
saying whether `tzinfo`/`utcoffset` is present (`hasOffset = false` models
both `tzinfo is None` and `utcoffset(value) is None`).

A float is modelled by NaN/infinity flags plus a rational value for the
finite case.  Bytes-like values are modelled as the byte list; the base64
transport encoding done by the standard library is kept abstract as the
identity on byte lists since no property below depends on it.
-/

structure PyDateTime where
  hasOffset : Bool
  utcMicros : Int
deriving DecidableEq, Repr

structure PyFloat where
  isNaN : Bool
  isInf : Bool
  val : Rat
deriving DecidableEq, Repr

inductive PyVal where
  | vnone
  | vbool (b : Bool)
  | vdatetime (d : PyDateTime)
  | vint (i : Int)
  | vfloat (f : PyFloat)
  | vstr (s : String)
  | vbytes (bs : List Nat)
deriving DecidableEq, Repr

/-- Tagged wire literal, the dict `{"t": ..., "v": ...}`. -/
inductive Tagged where
  | nullT
  | boolT (b : Bool)
  | datetimeT (ns : Int)
  | intT (i : Int)
  | floatT (f : Rat)
  | stringT (s : String)
  | bytesT (bs : List Nat)
deriving DecidableEq, Repr

/-- The `"t"` field of a tagged literal. -/
def Tagged.tag : Tagged → String
  | .nullT => "Null"
  | .boolT _ => "Bool"
  | .datetimeT _ => "DateTime"
  | .intT _ => "Int"
  | .floatT _ => "Float"
  | .stringT _ => "String"
  | .bytesT _ => "Bytes"

def _I64_MIN : Int := -(2 ^ 63)

def _I64_MAX : Int := 2 ^ 63 - 1

/-- `datetime(1900, 1, 1, tzinfo=timezone.utc)` in microseconds since the
epoch: -25567 days of 86400 seconds. -/
def _MIN_DATETIME_MICROS : Int := -2208988800000000

/-- `datetime(2100, 1, 1, tzinfo=timezone.utc)` in microseconds since the
epoch: 47482 days of 86400 seconds. -/
def _MAX_DATETIME_MICROS : Int := 4102444800000000

def _MICROS_PER_DAY : Int := 86400000000

def _MICROS_PER_SECOND : Int := 1000000

def _NANOS_PER_SECOND : Int := 1000000000

/-- `_datetime_to_ns` (`query.py` lines 1662-1671).  The subtraction
`normalized - _EPOCH` produces a `timedelta` normalized to
`(days, seconds, microseconds)` with `0 <= seconds < 86400` and
`0 <= microseconds < 1000000` (floor semantics); `Int.ediv`/`Int.emod`
agree with Python floor division for these positive divisors. -/
def _datetime_to_ns (value : PyDateTime) : Except String Int :=
  if !value.hasOffset then
    .error "datetime literal must include timezone info"
  else if value.utcMicros < _MIN_DATETIME_MICROS ∨ value.utcMicros > _MAX_DATETIME_MICROS then
    .error "datetime literal must be between 1900-01-01 and 2100-01-01 UTC"
  else
    let deltaDays := value.utcMicros.ediv _MICROS_PER_DAY
    let deltaRem := value.utcMicros.emod _MICROS_PER_DAY
    let deltaSeconds := deltaRem.ediv _MICROS_PER_SECOND
    let deltaMicroseconds := deltaRem.emod _MICROS_PER_SECOND
    let totalSeconds := deltaDays * 86400 + deltaSeconds
    .ok (totalSeconds * _NANOS_PER_SECOND + deltaMicroseconds * 1000)

/-- `isinstance(value, bool)`. -/
def isinstanceBool : PyVal → Bool
  | .vbool _ => true
  | _ => false

/-- `isinstance(value, int)`: in Python `bool` is a subclass of `int`,
so boolean values are `int` instances as well. -/
def isinstanceInt : PyVal → Bool
  | .vbool _ => true
  | .vint _ => true
  | _ => false

def isinstanceDatetime : PyVal → Bool
  | .vdatetime _ => true
  | _ => false

def isinstanceFloat : PyVal → Bool
  | .vfloat _ => true
  | _ => false

def isinstanceStr : PyVal → Bool
  | .vstr _ => true
  | _ => false

def isinstanceBytes : PyVal → Bool
  | .vbytes _ => true
  | _ => false

def PyVal.asBool : PyVal → Bool
  | .vbool b => b
  | _ => false

def PyVal.asDatetime : PyVal → PyDateTime
  | .vdatetime d => d
  | _ => ⟨false, 0⟩

def PyVal.asInt : PyVal → Int
  | .vint i => i
  | .vbool true => 1
  | _ => 0

def PyVal.asFloat : PyVal → PyFloat
  | .vfloat f => f
  | _ => ⟨false, false, 0⟩

def PyVal.asStr : PyVal → String
  | .vstr s => s
  | _ => ""

def PyVal.asBytes : PyVal → List Nat
  | .vbytes bs => bs
  | _ => []

/-- `_encode_bytes_literal` (`query.py` lines 255-257): base64 of the bytes;
kept as the raw byte list (the stdlib encoding is injective and no property
below inspects it). -/
def _encode_bytes_literal (value : List Nat) : List Nat := value

/-- `_literal_value` (`query.py` lines 260-279), written as the same chain
of `isinstance` checks in source order: in particular the `bool` check is
dispatched before the `int` check even though booleans are `int` instances. -/
def _literal_value (value : PyVal) : Except String Tagged :=
  if value = .vnone then .ok .nullT
  else if isinstanceBool value then .ok (.boolT value.asBool)
  else if isinstanceDatetime value then
    match _datetime_to_ns value.asDatetime with
    | .error e => .error e
    | .ok ns => .ok (.datetimeT ns)
  else if isinstanceInt value then
    if value.asInt < _I64_MIN ∨ value.asInt > _I64_MAX then
      .error "integer literal must fit within signed 64-bit range"
    else .ok (.intT value.asInt)
  else if isinstanceFloat value then
    if (value.asFloat).isNaN ∨ (value.asFloat).isInf then
      .error "float literal must be finite"
    else .ok (.floatT (value.asFloat).val)
  else if isinstanceStr value then .ok (.stringT value.asStr)
  else if isinstanceBytes value then .ok (.bytesT (_encode_bytes_literal value.asBytes))
  else .error "unsupported literal type"

/-! ## Mutation summaries and chunked batching
(`query.py` lines 286-307 and 1156-1175, `typed/db.py` lines 112-142)

The native Engine is passed in as an explicit function argument; functions
that call it also return the list of argument values of those calls, in call
order, so the number and contents of Engine calls are provable facts.
Summaries coming back from the Engine are modelled as already well-typed
(`createdNodes` a list, counters integers), which is what the `or []` /
`or 0` coercions in `_merge_mutation_summaries` normalize to.
-/

structure MutationSummary where
  createdNodes : List Int
  createdEdges : List Int
  updatedNodes : Int
  updatedEdges : Int
  deletedNodes : Int
  deletedEdges : Int
deriving DecidableEq, Repr

/-- `_empty_mutation_summary` (`query.py` lines 286-294). -/
def _empty_mutation_summary : MutationSummary :=
  ⟨[], [], 0, 0, 0, 0⟩

/-- `_merge_mutation_summaries` (`query.py` lines 297-307). -/
def _merge_mutation_summaries (lhs rhs : MutationSummary) : MutationSummary :=
  { createdNodes := lhs.createdNodes ++ rhs.createdNodes
    createdEdges := lhs.createdEdges ++ rhs.createdEdges
    updatedNodes := lhs.updatedNodes + rhs.updatedNodes
    updatedEdges := lhs.updatedEdges + rhs.updatedEdges
    deletedNodes := lhs.deletedNodes + rhs.deletedNodes
    deletedEdges := lhs.deletedEdges + rhs.deletedEdges }

/-- The chunks visited by `for i in range(0, len(ops), n)` with slice
`ops[i : i + n]`, for a positive step `n` (`n = 0` never occurs because the
callers validate positivity first; it is mapped to a single chunk only to
make the recursion total). -/
def chunksOf {α : Type} : Nat → List α → List (List α)
  | _, [] => []
  | 0, l => [l]
  | n + 1, x :: xs => (x :: xs.take n) :: chunksOf (n + 1) (xs.drop n)
termination_by _n l => l.length
decreasing_by
  simp only [List.length_drop, List.length_cons]
  omega

/-- Whether a Python argument value passes `isinstance(x, int)`; `nonInt`
stands for any value of a non-integer type. -/
inductive PyIntArg where
  | int (i : Int)
  | nonInt
deriving DecidableEq, Repr

/-- `Database.mutate_batched` (`query.py` lines 1156-1175).  `eng` is
`self.mutate` (one native Engine mutation per call); the second component
of the result is the list of op lists passed to it. -/
def mutate_batched {α : Type} (eng : List α → MutationSummary) (ops : List α)
    (batch_size : PyIntArg) : Except String MutationSummary × List (List α) :=
  match batch_size with
  | .nonInt => (.error "batch_size must be a positive integer", [])
  | .int n =>
      if n ≤ 0 then (.error "batch_size must be a positive integer", [])
      else if ops.isEmpty then (.ok _empty_mutation_summary, [])
      else
        let cs := chunksOf n.toNat ops
        (.ok (cs.foldl (fun acc chunk => _merge_mutation_summaries acc (eng chunk))
            _empty_mutation_summary),
         cs)

/-- A `createNode` op dict as built by `bulk_load_nodes`; `props` values are
arbitrary application data. -/
structure CreateNodeOp where
  labels : List String
  props : List (String × PyVal)
deriving DecidableEq, Repr

/-- `SombraDB.bulk_load_nodes` (`typed/db.py` lines 112-142), without an
active schema: `_assert_node_label` then reduces to the non-empty-string
check and `_validate_node_props` is a no-op.  `eng` is `self._db.mutate`;
the second component of the result records each Engine call's op list. -/
def bulk_load_nodes (eng : List CreateNodeOp → MutationSummary) (label : String)
    (nodes : List (List (String × PyVal))) (chunk_size : PyIntArg) :
    Except String (List Int) × List (List CreateNodeOp) :=
  if pyStrip label = "" then
    (.error "bulk_load_nodes requires a non-empty node label", [])
  else
    match chunk_size with
    | .nonInt => (.error "chunk_size must be a positive integer", [])
    | .int n =>
        if n ≤ 0 then (.error "chunk_size must be a positive integer", [])
        else if nodes.isEmpty then (.ok [], [])
        else
          let calls := (chunksOf n.toNat nodes).map
            (fun chunk => chunk.map (fun props => CreateNodeOp.mk [label] props))
          (.ok ((calls.map (fun ops => (eng ops).createdNodes)).flatten), calls)

/-! ## `_MutationBatch` (`query.py` lines 494-556) -/

/-- The op dicts queued by `_MutationBatch`; `rawOp` models an arbitrary
mapping handed to `queue(op)`. -/
inductive BatchOp where
  | createNode (labels : List String) (props : List (String × PyVal))
  | updateNode (id : Int) (setProps : List (String × PyVal)) (unset : List String)
  | deleteNode (id : Int) (cascade : Bool)
  | createEdge (src dst : Int) (ty : String) (props : List (String × PyVal))
  | updateEdge (id : Int) (setProps : List (String × PyVal)) (unset : List String)
  | deleteEdge (id : Int)
  | rawOp (payload : List (String × PyVal))
deriving DecidableEq, Repr

structure MutationBatch where
  ops : List BatchOp
  sealed : Bool
deriving DecidableEq, Repr

/-- `_MutationBatch()` constructor. -/
def MutationBatch.new : MutationBatch := ⟨[], false⟩

/-- `_MutationBatch._queue` including the `_ensure_mutable` check. -/
def MutationBatch._queue (b : MutationBatch) (op : BatchOp) : Except String MutationBatch :=
  if b.sealed then .error "transaction already committed"
  else .ok ⟨b.ops ++ [op], b.sealed⟩

def MutationBatch.queue (b : MutationBatch) (payload : List (String × PyVal)) :
    Except String MutationBatch :=
  b._queue (.rawOp payload)

def MutationBatch.create_node (b : MutationBatch) (labels : List String)
    (props : List (String × PyVal)) : Except String MutationBatch :=
  b._queue (.createNode labels props)

def MutationBatch.delete_edge (b : MutationBatch) (id : Int) : Except String MutationBatch :=
  b._queue (.deleteEdge id)

/-- `_MutationBatch.drain` (`query.py` lines 552-556): sets `_sealed`,
snapshots the queued ops, clears the internal list and returns the
snapshot.  The method body contains no raise path, so it always returns
`.ok`; it is given the `Except` type used by every method model so that
"the call fails" is expressible about it. -/
def MutationBatch.drain (b : MutationBatch) : Except String (List BatchOp × MutationBatch) :=
  .ok (b.ops, ⟨[], true⟩)

/-! ## `CreateBuilder` (`query.py` lines 955-1082)

The create script sent to `_native.database_create` and the Engine reply:
the reply content is irrelevant to the properties below, so the Engine is a
function into an arbitrary summary type `σ`.  `execute` returns the typed
result, the updated builder and the list of scripts passed to the Engine.
-/

inductive EdgeRef where
  | handle (index : Nat)
  | aliasRef (name : String)
  | id (value : Int)
deriving DecidableEq, Repr

structure CreateNodeEntry where
  labels : List String
  props : List (String × PyVal)
  aliasName : Option String
deriving DecidableEq, Repr

structure CreateEdgeEntry where
  src : EdgeRef
  ty : String
  dst : EdgeRef
  props : List (String × PyVal)
deriving DecidableEq, Repr

structure CreateScript where
  nodes : List CreateNodeEntry
  edges : List CreateEdgeEntry
deriving DecidableEq, Repr

structure CreateBuilder where
  nodes : List CreateNodeEntry
  edges : List CreateEdgeEntry
  sealed : Bool
deriving DecidableEq, Repr

/-- `Database.create()` hands out a fresh builder. -/
def CreateBuilder.new : CreateBuilder := ⟨[], [], false⟩

/-- `CreateBuilder.node` (validation of `labels` via `_normalize_labels`
is identity on an already-typed string list; alias non-emptiness per
source).  Returns the handle index together with the updated builder. -/
def CreateBuilder.node (b : CreateBuilder) (labels : List String)
    (props : List (String × PyVal)) (aliasName : Option String) :
    Except String (CreateBuilder × Nat) :=
  if b.sealed then .error "builder already executed"
  else
    match aliasName with
    | some a =>
        if a = "" then .error "alias must be a non-empty string"
        else .ok (⟨b.nodes ++ [⟨labels, props, some a⟩], b.edges, b.sealed⟩, b.nodes.length)
    | none => .ok (⟨b.nodes ++ [⟨labels, props, none⟩], b.edges, b.sealed⟩, b.nodes.length)

/-- `CreateBuilder.execute` (`query.py` lines 1041-1065).  `dbClosed`
models `self._db._assert_open()`; `eng` is `_native.database_create`.
The script rebuild loop copies each accumulated entry unchanged. -/
def CreateBuilder.execute {σ : Type} (eng : CreateScript → σ) (dbClosed : Bool)
    (b : CreateBuilder) : Except String σ × CreateBuilder × List CreateScript :=
  if dbClosed then (.error "database is closed", b, [])
  else if b.sealed then (.error "builder already executed", b, [])
  else
    let script : CreateScript := ⟨b.nodes, b.edges⟩
    (.ok (eng script), ⟨b.nodes, b.edges, true⟩, [script])

/-! ## `_QueryStream` (`query.py` lines 559-602)

The native stream handle is modelled by the list of rows it will still
yield (`stream_next` pops the head and returns `None` when exhausted).
`StreamState` bundles the adapter's `_closed` flag with that handle and a
counter of `stream_close` native calls, so "no further native close call"
is provable.  `hasCloseFn` models `getattr(_native, "stream_close", None)`
being present.  Rows are an arbitrary type `ρ`.
-/

structure StreamState (ρ : Type) where
  closed : Bool
  rows : List ρ
  nativeCloseCalls : Nat
deriving DecidableEq, Repr

/-- `_QueryStream.close` (`query.py` lines 582-592). -/
def QueryStream.close {ρ : Type} (hasCloseFn : Bool) (s : StreamState ρ) : StreamState ρ :=
  if s.closed then s
  else if hasCloseFn then ⟨true, s.rows, s.nativeCloseCalls + 1⟩
  else ⟨true, s.rows, s.nativeCloseCalls⟩

/-- `_QueryStream.__anext__` (`query.py` lines 567-574): `none` in the
first component models `StopAsyncIteration`. -/
def QueryStream.anext {ρ : Type} (hasCloseFn : Bool) (s : StreamState ρ) :
    Option ρ × StreamState ρ :=
  if s.closed then (none, s)
  else
    match s.rows with
    | [] => (none, QueryStream.close hasCloseFn ⟨s.closed, [], s.nativeCloseCalls⟩)
    | r :: rest => (some r, ⟨s.closed, rest, s.nativeCloseCalls⟩)

/-- `_QueryStream.__del__` (`query.py` lines 594-602): the finalizer close
path (errors from the native close are swallowed). -/
def QueryStream.finalizerClose {ρ : Type} (hasCloseFn : Bool) (s : StreamState ρ) :
    StreamState ρ :=
  if s.closed then s
  else if hasCloseFn then ⟨true, s.rows, s.nativeCloseCalls + 1⟩
  else ⟨true, s.rows, s.nativeCloseCalls⟩

/-! ## Query builder state (`query.py` lines 1380-1661)

The builder is modelled without an active runtime schema
(`db._schema is None`), so every property validator produced by
`_make_prop_validator` is `_normalize_prop_name` (the pass-through that
only rejects blank names), exactly as in the source when no schema was
installed.  Field names follow the Python attribute names.
-/

structure MatchClause where
  var : String
  label : Option String
deriving DecidableEq, Repr

structure EdgeClause where
  fromVar : String
  toVar : String
  edge_type : Option String
  direction : String
deriving DecidableEq, Repr

/-- Literal payload carried by a comparison predicate node. -/
inductive PredPayload where
  | value (v : Tagged)
  | range (low high : Tagged) (inclusive : List Bool)
  | values (vs : List Tagged)
  | nothing
deriving DecidableEq, Repr

/-- A predicate dict: either a comparison leaf
`{"op", "var", "prop", ...}` or a combinator `{"op", "args"}`.  In the
source every dict with op `and`/`or`/`not` is a combinator with an `args`
list and every dict with a comparison op is a leaf. -/
inductive Pred where
  | leaf (op : String) (var : String) (prop : String) (payload : PredPayload)
  | group (op : String) (args : List Pred)

inductive Projection where
  | varP (var : String) (aliasName : Option String)
  | propP (var : String) (prop : String) (aliasName : Option String)
deriving DecidableEq, Repr

structure QueryBuilder where
  _matches : List MatchClause
  _edges : List EdgeClause
  _predicate : Option Pred
  _projections : List Projection
  _distinct : Bool
  _last_var : Option String
  _next_var_idx : Nat
  _pending_direction : String
  _request_id : Option String

/-- `Database.query()` hands out a fresh builder (`QueryBuilder.__init__`). -/
def QueryBuilder.new : QueryBuilder :=
  ⟨[], [], none, [], false, none, 0, "out", none⟩

/-- `_normalize_prop_name` (`query.py` lines 326-329); the argument is
already a string, so only the `strip()` emptiness check remains. -/
def _normalize_prop_name (prop : String) : Except String String :=
  if pyStrip prop = "" then .error "property name must be a non-empty string"
  else .ok prop

/-- The loop of `QueryBuilder._ensure_match` (`query.py` lines 1557-1563)
over the accumulated match list: the first clause with the same variable
absorbs the label when it had none and the new label is non-null;
otherwise the method returns leaving the list unchanged; only when no
clause matches is a new one appended. -/
def ensureMatchList : List MatchClause → String → Option String → List MatchClause
  | [], var, label => [⟨var, label⟩]
  | m :: rest, var, label =>
      if m.var = var then
        if label.isSome ∧ m.label = none then ⟨var, label⟩ :: rest
        else m :: rest
      else m :: ensureMatchList rest var label

/-- `QueryBuilder._ensure_match`. -/
def QueryBuilder._ensure_match (b : QueryBuilder) (var : String) (label : Option String) :
    QueryBuilder :=
  { b with _matches := ensureMatchList b._matches var label }

/-- `QueryBuilder._assert_match` (`query.py` lines 1565-1567). -/
def QueryBuilder._assert_match (b : QueryBuilder) (var : String) : Except String Unit :=
  if b._matches.any (fun m => m.var = var) then .ok ()
  else .error "unknown variable - call match() first"

/-- The `"op"` entry of a predicate dict (`self._predicate.get("op")`). -/
def Pred.predOp : Pred → String
  | .leaf op _ _ _ => op
  | .group op _ => op

/-- The `"args"` list of a combinator node (`self._predicate["args"]`);
comparison leaves have no args entry, and in the source no leaf ever
carries the op of a combinator. -/
def Pred.groupArgs : Pred → List Pred
  | .leaf _ _ _ _ => []
  | .group _ args => args

/-- `QueryBuilder._append_predicate` (`query.py` lines 1569-1585): the
source tests `self._predicate.get("op") == combinator` and appends into
the existing `args` list, else wraps both under a fresh combinator
node. -/
def QueryBuilder._append_predicate (b : QueryBuilder) (expr : Pred)
    (combinator : String := "and") : Except String QueryBuilder :=
  match b._predicate with
  | none => .ok { b with _predicate := some expr }
  | some p =>
      if combinator = "and" then
        if p.predOp = "and" then
          .ok { b with _predicate := some (.group "and" (p.groupArgs ++ [expr])) }
        else .ok { b with _predicate := some (.group "and" [p, expr]) }
      else if combinator = "or" then
        if p.predOp = "or" then
          .ok { b with _predicate := some (.group "or" (p.groupArgs ++ [expr])) }
        else .ok { b with _predicate := some (.group "or" [p, expr]) }
      else .error "unsupported predicate combinator"

/-- A `ProjectionField` as accepted by `QueryBuilder.select`: a bare
variable name string, a dict containing a `prop` key, a dict containing a
`var` key (and no `prop`), a dict containing an `expr` key, or any other
dict. -/
inductive ProjField where
  | str (name : String)
  | propDict (var : Option String) (prop : String) (aliasName : Option String)
  | varDict (var : String) (aliasName : Option String)
  | exprDict
  | otherDict
deriving DecidableEq, Repr

/-- The per-field validation loop of `QueryBuilder.select` (`query.py`
lines 1486-1519), against the declared matches.  With no schema active the
validator applied to a property name is `_normalize_prop_name`. -/
def selectFields (ms : List MatchClause) : List ProjField → Except String (List Projection)
  | [] => .ok []
  | f :: rest => do
      let one : Projection ←
        match f with
        | .str name =>
            if ms.any (fun m => m.var = name) then pure (.varP name none)
            else .error "unknown variable - call match() first"
        | .propDict varOpt prop aliasName =>
            match varOpt with
            | none => .error "property projection requires a variable name"
            | some var =>
                if var = "" then .error "property projection requires a variable name"
                else if prop = "" then .error "property projection requires a property name"
                else if ms.any (fun m => m.var = var) then
                  match _normalize_prop_name prop with
                  | .error e => .error e
                  | .ok normalized => pure (.propP var normalized aliasName)
                else .error "unknown variable - call match() first"
        | .varDict var aliasName =>
            if ms.any (fun m => m.var = var) then pure (.varP var aliasName)
            else .error "unknown variable - call match() first"
        | .exprDict =>
            .error "expression projections are not supported; use property projections instead"
        | .otherDict => .error "projection dict must contain prop or var"
      let others ← selectFields ms rest
      pure (one :: others)

/-- `QueryBuilder.select`: on success the freshly built list is assigned
to `self._projections`, discarding whatever was accumulated before. -/
def QueryBuilder.select (b : QueryBuilder) (fields : List ProjField) :
    Except String QueryBuilder :=
  match selectFields b._matches fields with
  | .error e => .error e
  | .ok projections => .ok { b with _projections := projections }

/-- The key-translation loop of `QueryBuilder._select_props`
(`query.py` lines 1637-1642). -/
def selectPropsKeys (var : String) (acc : List Projection) :
    List String → Except String (List Projection)
  | [] => .ok acc
  | k :: rest =>
      match _normalize_prop_name k with
      | .error e => .error e
      | .ok normalized => selectPropsKeys var (acc ++ [.propP var normalized none]) rest

/-- `QueryBuilder._select_props`, the node scope `select` path: appends
one property projection per key to the accumulated projections. -/
def QueryBuilder._select_props (b : QueryBuilder) (var : String) (keys : List String) :
    Except String QueryBuilder :=
  match b._assert_match var with
  | .error e => .error e
  | .ok _ =>
      match selectPropsKeys var b._projections keys with
      | .error e => .error e
      | .ok projections => .ok { b with _projections := projections }

/-- The canonical query spec produced by `QueryBuilder._build`; the
`specMatches` field models the `"matches"` key of the spec dict. -/
structure QuerySpec where
  specMatches : List MatchClause
  edges : List EdgeClause
  distinct : Bool
  projections : List Projection
  predicate : Option Pred
  request_id : Option String

/-- `QueryBuilder._build` (`query.py` lines 1592-1620): when no projection
was accumulated (`self._projections` empty, hence falsy) the default is one
whole-entity projection per declared match variable in declaration order. -/
def QueryBuilder._build (b : QueryBuilder) : QuerySpec :=
  let projections :=
    if b._projections.isEmpty then
      b._matches.map (fun clause => Projection.varP clause.var none)
    else b._projections
  { specMatches := b._matches
    edges := b._edges
    distinct := b._distinct
    projections := projections
    predicate := b._predicate
    request_id := b._request_id }

/-! ## Scoped predicate builder membership (`query.py` lines 605-752)

`_PredicateBuilder` is bound to one variable; without an active schema its
validator is `_normalize_prop_name`.  Only the state touched by `in_` is
modelled.  The input domain of `in_` is the annotated
`Sequence[LiteralInput]`, so the defensive `isinstance` rejection of
nested collections (which are not `LiteralInput` values) is vacuous here.
-/

structure PredicateBuilder where
  _var : String
  _mode : String
  _exprs : List Pred
  _sealed : Bool

/-- `_PredicateBuilder(parent, var)` constructor defaults. -/
def PredicateBuilder.new (var : String) : PredicateBuilder :=
  ⟨var, "and", [], false⟩

/-- The encoding loop of `_PredicateBuilder.in_`: `_literal_value` on each
item in order, the first failure aborting the call. -/
def encodeAll : List PyVal → Except String (List Tagged)
  | [] => .ok []
  | v :: rest =>
      match _literal_value v with
      | .error e => .error e
      | .ok t =>
          match encodeAll rest with
          | .error e => .error e
          | .ok ts => .ok (t :: ts)

/-- The homogeneity check of `_PredicateBuilder.in_` (`query.py` lines
729-733): the exemplar is the first non-null entry and every other
non-null entry must share its tag. -/
def checkTags (tagged : List Tagged) : Except String Unit :=
  match tagged.find? (fun entry => entry.tag ≠ "Null") with
  | none => .ok ()
  | some exemplar =>
      if tagged.all (fun entry => entry.tag = "Null" ∨ entry.tag = exemplar.tag) then .ok ()
      else .error "in_() requires all literals to share the same type"

/-- `_PredicateBuilder.in_` (`query.py` lines 718-741): emptiness check,
per-item encoding, homogeneity check, then property normalization and
`_push` (whose `_ensure_active` rejects a finalized builder). -/
def PredicateBuilder.in_ (pb : PredicateBuilder) (prop : String) (values : List PyVal) :
    Except String PredicateBuilder :=
  if values.isEmpty then .error "in_() requires at least one literal"
  else
    match encodeAll values with
    | .error e => .error e
    | .ok tagged =>
        match checkTags tagged with
        | .error e => .error e
        | .ok _ =>
            match _normalize_prop_name prop with
            | .error e => .error e
            | .ok normalized =>
                if pb._sealed then .error "predicate builder already finalized"
                else
                  .ok ⟨pb._var, pb._mode,
                    pb._exprs ++ [.leaf "in" pb._var normalized (.values tagged)],
                    pb._sealed⟩

/-- `_convert_in_list_values` (`query.py` lines 942-952), the `in_list`
expression-helper path: same per-item encoding and homogeneity rule as
`in_`; the `_ensure_scalar_literal` guard is vacuous on `LiteralInput`
values. -/
def _convert_in_list_values (values : List PyVal) : Except String (List Tagged) :=
  match encodeAll values with
  | .error e => .error e
  | .ok tagged =>
      match tagged.find? (fun entry => entry.tag ≠ "Null") with
      | none => .ok tagged
      | some exemplar =>
          if tagged.all (fun entry => entry.tag = "Null" ∨ entry.tag = exemplar.tag) then
            .ok tagged
          else .error "in_list() requires all literals to share the same type"

/-- The label carried by the first match clause for a variable (`none`
when the variable is undeclared). -/
def lookupLabel (ms : List MatchClause) (var : String) : Option (Option String) :=
  (ms.find? (fun m => m.var = var)).map MatchClause.label

/-! ## Theorems -/

/-- C1 counterexample: the claim says wrapping an already-typed error is
an identity operation, but `wrap_native_error` tries the prefix grammar
first; on a `ConflictError` whose message is `"[CONFLICT] boom"` it
returns a fresh `ConflictError` with message `"boom"`, not the input. -/
theorem wrap_native_error_not_identity_on_prefixed_typed_error :
    wrap_native_error ⟨some .conflict, "CONFLICT", "[CONFLICT] boom"⟩ ≠
      ⟨some .conflict, "CONFLICT", "[CONFLICT] boom"⟩ := by
  decide

/-- C1 (amended): `wrap_native_error` parses the `"[CODE] rest"` prefix
grammar.  `"[CONFLICT] write-write conflict"` becomes a typed conflict
error with message exactly `"write-write conflict"`; a message without the
prefix grammar from a non-Sombra exception is wrapped as a generic unknown
error holding the original text; a recognized-grammar but unrecognized
code still yields a generic typed error with the remainder as message; and
wrapping an already-typed error whose message does not match the prefix
grammar returns it unchanged (a typed error with a prefixed message is
re-parsed instead). -/
theorem wrap_native_error_spec :
    (∀ err : PyExc, err.message = "[CONFLICT] write-write conflict" →
      wrap_native_error err = mkErr .conflict "write-write conflict")
    ∧ (∀ err : PyExc, err.sombra = none → matchErrorCode err.message.data = none →
      wrap_native_error err = ⟨some .base, "UNKNOWN", err.message⟩)
    ∧ (∀ (err : PyExc) (code rest : String),
      matchErrorCode err.message.data = some (code, rest) →
      _ERROR_CLASS_MAP code = .base →
      wrap_native_error err = mkErr .base rest)
    ∧ (∀ err : PyExc, err.sombra.isSome → matchErrorCode err.message.data = none →
      wrap_native_error err = err) := by
  refine ⟨?_, ?_, ?_, ?_⟩
  · intro err h
    have hm : matchErrorCode err.message.data = some ("CONFLICT", "write-write conflict") := by
      rw [h]; decide
    simp only [wrap_native_error, hm]
    decide
  · intro err hs hm
    simp only [wrap_native_error, hm, hs]
  · intro err code rest hm hc
    simp only [wrap_native_error, hm, hc]
  · intro err hs hm
    simp only [wrap_native_error, hm]
    cases h : err.sombra with
    | some c => rfl
    | none => rw [h] at hs; simp at hs

/-- C1 witness: the amended theorem applied at concrete inputs. -/
theorem wrap_native_error_spec_witness :
    wrap_native_error ⟨none, "", "[CONFLICT] write-write conflict"⟩ =
      mkErr .conflict "write-write conflict"
    ∧ wrap_native_error ⟨none, "", "no prefix here"⟩ = ⟨some .base, "UNKNOWN", "no prefix here"⟩
    ∧ wrap_native_error ⟨none, "", "[WEIRD_CODE] odd"⟩ = mkErr .base "odd"
    ∧ wrap_native_error ⟨some .io, "IO", "already typed"⟩ = ⟨some .io, "IO", "already typed"⟩ :=
  ⟨wrap_native_error_spec.1 ⟨none, "", "[CONFLICT] write-write conflict"⟩ rfl,
   wrap_native_error_spec.2.1 ⟨none, "", "no prefix here"⟩ rfl (by decide),
   wrap_native_error_spec.2.2.1 ⟨none, "", "[WEIRD_CODE] odd"⟩ "WEIRD_CODE" "odd"
     (by decide) (by decide),
   wrap_native_error_spec.2.2.2 ⟨some .io, "IO", "already typed"⟩ (by decide) (by decide)⟩

/-- C2 counterexample: the claim says a second `drain()` on the same
`_MutationBatch` fails with an already-committed error, but `drain` has no
raise path: on a batch holding one op, draining, then draining the result
again succeeds and returns the empty op list. -/
theorem drain_twice_returns_empty :
    (MutationBatch.drain ⟨[.deleteEdge 1], false⟩).bind
        (fun p => MutationBatch.drain p.2) =
      .ok ([], ⟨[], true⟩) := by
  rfl

/-- C2 (amended): calling `execute()` a second time on a `CreateBuilder`
fails with the local "builder already executed" error and performs no
second Engine call (the first call performs exactly one); `drain()` seals
the batch — it returns the accumulated ops and leaves a sealed, emptied
batch on which any further queueing fails with "transaction already
committed" — and returns the accumulated ops exactly once: a second
drain does not fail but returns the empty list. -/
theorem builder_single_use_spec :
    (∀ (σ : Type) (eng : CreateScript → σ) (b : CreateBuilder), b.sealed = false →
      CreateBuilder.execute eng false b =
        (.ok (eng ⟨b.nodes, b.edges⟩), ⟨b.nodes, b.edges, true⟩, [⟨b.nodes, b.edges⟩]))
    ∧ (∀ (σ : Type) (eng : CreateScript → σ) (b : CreateBuilder), b.sealed = true →
      CreateBuilder.execute eng false b = (.error "builder already executed", b, []))
    ∧ (∀ (σ : Type) (eng : CreateScript → σ) (b : CreateBuilder), b.sealed = false →
      CreateBuilder.execute eng false
          (CreateBuilder.execute (σ := σ) eng false b).2.1 =
        (.error "builder already executed", ⟨b.nodes, b.edges, true⟩, []))
    ∧ (∀ b : MutationBatch, MutationBatch.drain b = .ok (b.ops, ⟨[], true⟩))
    ∧ (∀ (ops : List BatchOp) (op : BatchOp),
      MutationBatch._queue ⟨ops, true⟩ op = .error "transaction already committed")
    ∧ (∀ (b b' : MutationBatch) (ops : List BatchOp),
      MutationBatch.drain b = .ok (ops, b') → MutationBatch.drain b' = .ok ([], b')) := by
  refine ⟨?_, ?_, ?_, ?_, ?_, ?_⟩
  · intro σ eng b hb
    simp [CreateBuilder.execute, hb]
  · intro σ eng b hb
    simp [CreateBuilder.execute, hb]
  · intro σ eng b hb
    simp [CreateBuilder.execute, hb]
  · intro b
    rfl
  · intro ops op
    rfl
  · intro b b' ops h
    have h2 : Except.ok (ε := String) (b.ops, MutationBatch.mk [] true) = .ok (ops, b') := h
    have h3 : b' = ⟨[], true⟩ := (congrArg Prod.snd (Except.ok.inj h2)).symm
    rw [h3]
    rfl

/-- C2 witness: the amended theorem applied to a builder holding one node
entry and a batch holding one queued op. -/
theorem builder_single_use_spec_witness :
    CreateBuilder.execute (fun script => script.nodes.length) false
        ⟨[⟨["Person"], [], none⟩], [], false⟩ =
      (.ok 1, ⟨[⟨["Person"], [], none⟩], [], true⟩, [⟨[⟨["Person"], [], none⟩], []⟩])
    ∧ MutationBatch.drain ⟨[.deleteEdge 7], false⟩ = .ok ([.deleteEdge 7], ⟨[], true⟩)
    ∧ MutationBatch.drain ⟨[], true⟩ = .ok ([], ⟨[], true⟩) :=
  ⟨builder_single_use_spec.1 Nat (fun script => script.nodes.length)
      ⟨[⟨["Person"], [], none⟩], [], false⟩ rfl,
   builder_single_use_spec.2.2.2.1 ⟨[.deleteEdge 7], false⟩,
   builder_single_use_spec.2.2.2.2.2 ⟨[.deleteEdge 7], false⟩ ⟨[], true⟩ [.deleteEdge 7]
     (builder_single_use_spec.2.2.2.1 ⟨[.deleteEdge 7], false⟩)⟩

/-- The timedelta decomposition used by `_datetime_to_ns` recombines to
exactly `microseconds * 1000` nanoseconds. -/
theorem timedelta_recombination (t : Int) :
    (t.ediv _MICROS_PER_DAY * 86400 + (t.emod _MICROS_PER_DAY).ediv _MICROS_PER_SECOND) *
        _NANOS_PER_SECOND +
      (t.emod _MICROS_PER_DAY).emod _MICROS_PER_SECOND * 1000 = t * 1000 := by
  have h1 : (86400000000 : Int) * t.ediv 86400000000 + t.emod 86400000000 = t :=
    Int.ediv_add_emod t 86400000000
  have h2 : (1000000 : Int) * (t.emod 86400000000).ediv 1000000 +
      (t.emod 86400000000).emod 1000000 = t.emod 86400000000 :=
    Int.ediv_add_emod (t.emod 86400000000) 1000000
  simp only [_MICROS_PER_DAY, _MICROS_PER_SECOND, _NANOS_PER_SECOND]
  linarith

/-- C3 counterexample: the claim says a datetime normalizing to exactly
2100-01-01T00:00:00Z is rejected, but the source checks
`normalized > _MAX_DATETIME`, so that very instant (4102444800000000
microseconds since the epoch) is accepted and encoded. -/
theorem datetime_to_ns_accepts_upper_bound :
    _datetime_to_ns ⟨true, 4102444800000000⟩ = .ok 4102444800000000000 := by
  rfl

/-- C3 (amended): the literal encoder fails on a datetime unless it
carries an explicit offset and, once normalized to UTC, falls within the
closed window [1900-01-01T00:00:00Z, 2100-01-01T00:00:00Z] — the upper
bound is included, not excluded; an offset-less (naive) datetime and a
datetime normalizing strictly past 2100-01-01T00:00:00Z are rejected, and
an accepted datetime is encoded as integer nanoseconds since the Unix
epoch (1000 nanoseconds per microsecond of its UTC instant). -/
theorem datetime_literal_spec :
    (∀ d : PyDateTime, d.hasOffset = false →
      _literal_value (.vdatetime d) = .error "datetime literal must include timezone info")
    ∧ (∀ d : PyDateTime, d.hasOffset = true →
      d.utcMicros < _MIN_DATETIME_MICROS ∨ d.utcMicros > _MAX_DATETIME_MICROS →
      _literal_value (.vdatetime d) =
        .error "datetime literal must be between 1900-01-01 and 2100-01-01 UTC")
    ∧ (∀ d : PyDateTime, d.hasOffset = true →
      _MIN_DATETIME_MICROS ≤ d.utcMicros → d.utcMicros ≤ _MAX_DATETIME_MICROS →
      _literal_value (.vdatetime d) = .ok (.datetimeT (d.utcMicros * 1000))) := by
  refine ⟨?_, ?_, ?_⟩
  · intro d h
    simp [_literal_value, isinstanceBool, isinstanceDatetime, PyVal.asDatetime,
      _datetime_to_ns, h]
  · intro d h hr
    simp [_literal_value, isinstanceBool, isinstanceDatetime, PyVal.asDatetime,
      _datetime_to_ns, h, hr]
  · intro d h hlo hhi
    have hr : ¬(d.utcMicros < _MIN_DATETIME_MICROS ∨ d.utcMicros > _MAX_DATETIME_MICROS) := by
      omega
    simp only [_literal_value, isinstanceBool, isinstanceDatetime, PyVal.asDatetime,
      _datetime_to_ns, h, hr, Bool.not_true, Bool.false_eq_true, if_false, if_true,
      ite_false, ite_true]
    rw [timedelta_recombination]
    simp

/-- C3 witness: the amended theorem applied to a naive datetime, a
datetime one microsecond past the window, and 2020-01-01T00:00:00Z. -/
theorem datetime_literal_spec_witness :
    _literal_value (.vdatetime ⟨false, 1577836800000000⟩) =
      .error "datetime literal must include timezone info"
    ∧ _literal_value (.vdatetime ⟨true, 4102444800000001⟩) =
      .error "datetime literal must be between 1900-01-01 and 2100-01-01 UTC"
    ∧ _literal_value (.vdatetime ⟨true, 1577836800000000⟩) =
      .ok (.datetimeT 1577836800000000000) :=
  ⟨datetime_literal_spec.1 ⟨false, 1577836800000000⟩ rfl,
   datetime_literal_spec.2.1 ⟨true, 4102444800000001⟩ rfl (by decide),
   datetime_literal_spec.2.2 ⟨true, 1577836800000000⟩ rfl (by decide) (by decide)⟩

/-- C10: in both `_literal_value` implementations booleans are `int`
instances, yet every boolean input is tagged `Bool` (never `Int`) because
the `bool` check is dispatched first; the signed 64-bit range check
applies exactly to the integer inputs that are not booleans. -/
theorem literal_value_bool_before_int :
    (∀ b : Bool, _literal_value (.vbool b) = .ok (.boolT b))
    ∧ (∀ b : Bool, isinstanceInt (.vbool b) = true)
    ∧ (∀ b : Bool, ∀ i : Int, _literal_value (.vbool b) ≠ .ok (.intT i))
    ∧ (∀ v : PyVal, isinstanceInt v = true → isinstanceBool v = false →
      _literal_value v =
        if v.asInt < _I64_MIN ∨ v.asInt > _I64_MAX then
          .error "integer literal must fit within signed 64-bit range"
        else .ok (.intT v.asInt)) := by
  refine ⟨?_, ?_, ?_, ?_⟩
  · intro b
    cases b <;> rfl
  · intro b
    rfl
  · intro b i
    cases b <;> simp [_literal_value, isinstanceBool, PyVal.asBool]
  · intro v hint hbool
    cases v <;> simp_all [isinstanceInt, isinstanceBool, _literal_value, isinstanceDatetime,
      PyVal.asInt]

/-- C10 witness: the dispatch theorem applied to `True` and to an
out-of-range non-bool integer. -/
theorem literal_value_bool_before_int_witness :
    _literal_value (.vbool true) = .ok (.boolT true)
    ∧ isinstanceInt (.vbool true) = true
    ∧ _literal_value (.vint (2 ^ 63)) =
      .error "integer literal must fit within signed 64-bit range" := by
  refine ⟨literal_value_bool_before_int.1 true, literal_value_bool_before_int.2.1 true, ?_⟩
  rw [literal_value_bool_before_int.2.2.2 (.vint (2 ^ 63)) rfl rfl]
  norm_num [PyVal.asInt, _I64_MIN, _I64_MAX]

/-- Folding `_merge_mutation_summaries` over Engine replies concatenates
the list fields in fold order and sums the counter fields. -/
theorem foldl_merge_pointwise (l : List MutationSummary) (acc : MutationSummary) :
    l.foldl _merge_mutation_summaries acc =
      ⟨acc.createdNodes ++ (l.map MutationSummary.createdNodes).flatten,
       acc.createdEdges ++ (l.map MutationSummary.createdEdges).flatten,
       acc.updatedNodes + (l.map MutationSummary.updatedNodes).sum,
       acc.updatedEdges + (l.map MutationSummary.updatedEdges).sum,
       acc.deletedNodes + (l.map MutationSummary.deletedNodes).sum,
       acc.deletedEdges + (l.map MutationSummary.deletedEdges).sum⟩ := by
  induction l generalizing acc with
  | nil => simp
  | cons s rest ih =>
      simp only [List.foldl_cons, List.map_cons, List.flatten_cons, List.sum_cons, ih,
        _merge_mutation_summaries]
      simp [MutationSummary.mk.injEq, List.append_assoc, add_assoc]

/-- C4: bulk loading with a positive chunk size partitions the input into
fixed-size chunks submitted as independent Engine mutations: with chunk
size 2 over 5 records `bulk_load_nodes` performs exactly 3 Engine calls of
sizes 2, 2, 1, whose ops are the input records in input order, and — when
the Engine returns one created id per op — the returned id list has
length 5 and is the concatenation of the per-chunk id lists in chunk
order; a non-positive or non-integer chunk size fails with an error while
the Engine-call trace stays empty; and `mutate_batched` merges the
per-chunk summaries pointwise: list fields concatenate in chunk order and
counter fields sum. -/
theorem bulk_load_chunking_spec :
    (∀ (eng : List CreateNodeOp → MutationSummary) (label : String)
      (r1 r2 r3 r4 r5 : List (String × PyVal)), pyStrip label ≠ "" →
      (∀ ops, (eng ops).createdNodes.length = ops.length) →
      (bulk_load_nodes eng label [r1, r2, r3, r4, r5] (.int 2)).2 =
        [[⟨[label], r1⟩, ⟨[label], r2⟩], [⟨[label], r3⟩, ⟨[label], r4⟩], [⟨[label], r5⟩]]
      ∧ ∃ ids : List Int,
        (bulk_load_nodes eng label [r1, r2, r3, r4, r5] (.int 2)).1 = .ok ids
        ∧ ids.length = 5
        ∧ ids = ((bulk_load_nodes eng label [r1, r2, r3, r4, r5] (.int 2)).2.map
            (fun ops => (eng ops).createdNodes)).flatten)
    ∧ (∀ (α : Type) (eng : List α → MutationSummary) (ops : List α) (n : Int), n ≤ 0 →
      mutate_batched eng ops (.int n) = (.error "batch_size must be a positive integer", []))
    ∧ (∀ (α : Type) (eng : List α → MutationSummary) (ops : List α),
      mutate_batched eng ops .nonInt = (.error "batch_size must be a positive integer", []))
    ∧ (∀ (eng : List CreateNodeOp → MutationSummary) (label : String)
      (nodes : List (List (String × PyVal))) (n : Int), pyStrip label ≠ "" → n ≤ 0 →
      bulk_load_nodes eng label nodes (.int n) =
        (.error "chunk_size must be a positive integer", []))
    ∧ (∀ (eng : List CreateNodeOp → MutationSummary) (label : String)
      (nodes : List (List (String × PyVal))), pyStrip label ≠ "" →
      bulk_load_nodes eng label nodes .nonInt =
        (.error "chunk_size must be a positive integer", []))
    ∧ (∀ (α : Type) (eng : List α → MutationSummary) (ops : List α) (n : Int),
      0 < n → ops ≠ [] →
      mutate_batched eng ops (.int n) =
        (.ok ⟨(((chunksOf n.toNat ops).map eng).map MutationSummary.createdNodes).flatten,
              (((chunksOf n.toNat ops).map eng).map MutationSummary.createdEdges).flatten,
              (((chunksOf n.toNat ops).map eng).map MutationSummary.updatedNodes).sum,
              (((chunksOf n.toNat ops).map eng).map MutationSummary.updatedEdges).sum,
              (((chunksOf n.toNat ops).map eng).map MutationSummary.deletedNodes).sum,
              (((chunksOf n.toNat ops).map eng).map MutationSummary.deletedEdges).sum⟩,
         chunksOf n.toNat ops)) := by
  refine ⟨?_, ?_, ?_, ?_, ?_, ?_⟩
  · intro eng label r1 r2 r3 r4 r5 hl hlen
    have hcalls : (bulk_load_nodes eng label [r1, r2, r3, r4, r5] (.int 2)).2 =
        [[⟨[label], r1⟩, ⟨[label], r2⟩], [⟨[label], r3⟩, ⟨[label], r4⟩], [⟨[label], r5⟩]] := by
      simp [bulk_load_nodes, hl, chunksOf]
    refine ⟨hcalls, ?_⟩
    refine ⟨((bulk_load_nodes eng label [r1, r2, r3, r4, r5] (.int 2)).2.map
        (fun ops => (eng ops).createdNodes)).flatten, ?_, ?_, rfl⟩
    · simp [bulk_load_nodes, hl, chunksOf]
    · rw [hcalls]
      simp [hlen]
  · intro α eng ops n hn
    simp [mutate_batched, hn]
  · intro α eng ops
    rfl
  · intro eng label nodes n hl hn
    simp [bulk_load_nodes, hl, hn]
  · intro eng label nodes hl
    simp [bulk_load_nodes, hl]
  · intro α eng ops n hn hne
    have hn' : ¬n ≤ 0 := by omega
    simp only [mutate_batched, hn', if_false, List.isEmpty_eq_true, hne, ite_false]
    have hfold : (chunksOf n.toNat ops).foldl
        (fun acc chunk => _merge_mutation_summaries acc (eng chunk)) _empty_mutation_summary =
        ((chunksOf n.toNat ops).map eng).foldl _merge_mutation_summaries
          _empty_mutation_summary := by
      rw [List.foldl_map]
    rw [hfold, foldl_merge_pointwise]
    simp [_empty_mutation_summary]

/-- C4 witness: chunking five concrete records with chunk size 2 against
an Engine that returns one id per op, plus the failing chunk sizes. -/
theorem bulk_load_chunking_spec_witness :
    (bulk_load_nodes (fun ops => ⟨ops.map (fun _ => 7), [], 0, 0, 0, 0⟩) "Person"
        [[], [], [], [], []] (.int 2)).1 = .ok [7, 7, 7, 7, 7]
    ∧ (bulk_load_nodes (fun ops => ⟨ops.map (fun _ => 7), [], 0, 0, 0, 0⟩) "Person"
        [[], [], [], [], []] (.int 2)).2.length = 3
    ∧ bulk_load_nodes (fun ops => ⟨ops.map (fun _ => 7), [], 0, 0, 0, 0⟩) "Person"
        [[], [], [], [], []] (.int 0) = (.error "chunk_size must be a positive integer", [])
    ∧ mutate_batched (α := Nat) (fun ops => ⟨ops.map Int.ofNat, [], 0, 0, 0, 0⟩)
        [1, 2, 3] .nonInt = (.error "batch_size must be a positive integer", []) := by
  have h := bulk_load_chunking_spec.1 (fun ops => ⟨ops.map (fun _ => 7), [], 0, 0, 0, 0⟩)
    "Person" [] [] [] [] [] (by decide) (fun ops => by simp)
  have h0 := bulk_load_chunking_spec.2.2.2.1 (fun ops => ⟨ops.map (fun _ => 7), [], 0, 0, 0, 0⟩)
    "Person" [[], [], [], [], []] 0 (by decide) (by omega)
  have hni := bulk_load_chunking_spec.2.2.1 Nat (fun ops => ⟨ops.map Int.ofNat, [], 0, 0, 0, 0⟩)
    [1, 2, 3]
  obtain ⟨hcalls, ids, hok, hlen, hids⟩ := h
  refine ⟨?_, ?_, h0, hni⟩
  · rw [hok, hids, hcalls]
    rfl
  · rw [hcalls]
    rfl

/-- Declaring a variable absent from the list appends a fresh clause. -/
theorem ensureMatchList_append (ms : List MatchClause) (v : String) (l : Option String)
    (h : ∀ m ∈ ms, m.var ≠ v) : ensureMatchList ms v l = ms ++ [⟨v, l⟩] := by
  induction ms with
  | nil => rfl
  | cons m rest ih =>
      have hm : m.var ≠ v := h m (by simp)
      simp only [ensureMatchList, hm, if_false, List.cons_append]
      rw [ih (fun m' hm' => h m' (by simp [hm']))]

/-- Re-declaring a variable whose only prior clause is label-less adopts
the new label in place. -/
theorem ensureMatchList_adopt (ms : List MatchClause) (v L : String)
    (h : ∀ m ∈ ms, m.var ≠ v) :
    ensureMatchList (ms ++ [⟨v, none⟩]) v (some L) = ms ++ [⟨v, some L⟩] := by
  induction ms with
  | nil => simp [ensureMatchList]
  | cons m rest ih =>
      have hm : m.var ≠ v := h m (by simp)
      simp only [List.cons_append, ensureMatchList, hm, if_false, ite_false]
      exact congrArg (List.cons m) (ih (fun m' hm' => h m' (by simp [hm'])))

/-- The first clause found for a variable keeps its non-null label across
any later `_ensure_match` for that variable. -/
theorem ensureMatchList_keeps_label (ms : List MatchClause) (v L : String)
    (l' : Option String) (h : lookupLabel ms v = some (some L)) :
    lookupLabel (ensureMatchList ms v l') v = some (some L) := by
  induction ms with
  | nil => simp [lookupLabel] at h
  | cons m rest ih =>
      by_cases hm : m.var = v
      · have hlab : m.label = some L := by
          simp [lookupLabel, List.find?, hm] at h
          exact h
        have hcond : ¬(l'.isSome ∧ m.label = none) := by
          simp [hlab]
        simp [ensureMatchList, hm, hcond, lookupLabel, List.find?, hlab]
      · have h' : lookupLabel rest v = some (some L) := by
          simpa [lookupLabel, List.find?, hm] using h
        simpa [ensureMatchList, hm, lookupLabel, List.find?] using ih h'

/-- `ensureMatchList` either rewrites the first clause of the variable in
place (same variable names) or appends the new variable at the end. -/
theorem ensureMatchList_vars (ms : List MatchClause) (v : String) (l : Option String) :
    (ensureMatchList ms v l).map MatchClause.var =
      if v ∈ ms.map MatchClause.var then ms.map MatchClause.var
      else ms.map MatchClause.var ++ [v] := by
  induction ms with
  | nil => simp [ensureMatchList]
  | cons m rest ih =>
      by_cases hm : m.var = v
      · by_cases hc : l.isSome ∧ m.label = none <;>
          simp [ensureMatchList, hm, hc, List.mem_cons]
      · have hne : ¬v = m.var := fun h => hm h.symm
        by_cases hv : v ∈ rest.map MatchClause.var <;>
          simp [ensureMatchList, hm, List.map_cons, ih, List.mem_cons, hne, hv]

/-- C5: on any builder, declaring a match variable first without a label
and then with one leaves exactly one match clause for that variable and it
carries the label; once a variable's label is set, a later declaration
never overwrites it; and `_ensure_match` preserves uniqueness of variable
names in the accumulated match list. -/
theorem ensure_match_spec :
    (∀ (b : QueryBuilder) (v : String) (L : String), (∀ m ∈ b._matches, m.var ≠ v) →
      (((b._ensure_match v none)._ensure_match v (some L))._matches.filter
          (fun m => m.var = v)) = [⟨v, some L⟩])
    ∧ (∀ (b : QueryBuilder) (v L : String) (l' : Option String),
      lookupLabel b._matches v = some (some L) →
      lookupLabel ((b._ensure_match v l')._matches) v = some (some L))
    ∧ (∀ (b : QueryBuilder) (v : String) (l : Option String),
      (b._matches.map MatchClause.var).Nodup →
      (((b._ensure_match v l)._matches.map MatchClause.var)).Nodup) := by
  refine ⟨?_, ?_, ?_⟩
  · intro b v L h
    simp only [QueryBuilder._ensure_match]
    rw [ensureMatchList_append b._matches v none h, ensureMatchList_adopt b._matches v L h,
      List.filter_append]
    have hnone : b._matches.filter (fun m => m.var = v) = [] := by
      rw [List.filter_eq_nil_iff]
      intro m hm
      simp [h m hm]
    rw [hnone]
    simp
  · intro b v L l' h
    exact ensureMatchList_keeps_label b._matches v L l' h
  · intro b v l h
    rw [QueryBuilder._ensure_match, ensureMatchList_vars]
    by_cases hv : v ∈ b._matches.map MatchClause.var
    · simpa [hv] using h
    · simp only [hv, if_false, ite_false]
      exact List.Nodup.append h (List.nodup_singleton v) (by simp [hv])

/-- C5 witness: declaring `n0` without a label and then with label
`Person` on a fresh builder yields the single labelled clause; the label
then survives a further label-less and a conflicting re-declaration; and
uniqueness is preserved. -/
theorem ensure_match_spec_witness :
    ((QueryBuilder.new._ensure_match "n0" none)._ensure_match "n0"
        (some "Person"))._matches.filter (fun m => m.var = "n0") = [⟨"n0", some "Person"⟩]
    ∧ lookupLabel (((QueryBuilder.new._ensure_match "n0"
        (some "Person"))._ensure_match "n0" (some "Post"))._matches) "n0" = some (some "Person")
    ∧ ((((QueryBuilder.new._ensure_match "n0" none)._ensure_match "n0"
        (some "Person"))._matches).map MatchClause.var).Nodup :=
  ⟨ensure_match_spec.1 QueryBuilder.new "n0" "Person" (by simp [QueryBuilder.new]),
   ensure_match_spec.2.1 (QueryBuilder.new._ensure_match "n0" (some "Person")) "n0" "Person"
     (some "Post") (by decide),
   ensure_match_spec.2.2 (QueryBuilder.new._ensure_match "n0" none) "n0" (some "Person")
     (by decide)⟩

/-- `select` never reads the previously accumulated projections: its
result is the same whatever `_projections` held before. -/
theorem select_ignores_prior_projections (b : QueryBuilder) (ps : List Projection)
    (fields : List ProjField) :
    QueryBuilder.select { b with _projections := ps } fields = QueryBuilder.select b fields := by
  cases h : selectFields b._matches fields <;> simp [QueryBuilder.select, h]

/-- C6: an explicit `select(...)` call replaces any previously accumulated
projections — whatever was accumulated before, including by an earlier
`select` or appended through a node scope's `_select_props`, the outcome
is determined only by the declared matches and the new fields, and on
success `_projections` becomes exactly the translation of those fields;
when no select call was made (`_projections` still empty) the built spec's
projection list is one whole-entity (kind `var`) projection per declared
match variable, in declaration order. -/
theorem select_projection_spec :
    (∀ (b : QueryBuilder) (ps : List Projection) (fields : List ProjField),
      QueryBuilder.select { b with _projections := ps } fields = QueryBuilder.select b fields)
    ∧ (∀ (b b1 : QueryBuilder) (v : String) (keys : List String) (fields : List ProjField),
      QueryBuilder._select_props b v keys = .ok b1 →
      QueryBuilder.select b1 fields = QueryBuilder.select b fields)
    ∧ (∀ (b : QueryBuilder) (fields : List ProjField) (projs : List Projection),
      selectFields b._matches fields = .ok projs →
      QueryBuilder.select b fields = .ok { b with _projections := projs })
    ∧ (∀ b : QueryBuilder, b._projections = [] →
      (b._build).projections = b._matches.map (fun clause => Projection.varP clause.var none)) := by
  refine ⟨select_ignores_prior_projections, ?_, ?_, ?_⟩
  · intro b b1 v keys fields h
    simp only [QueryBuilder._select_props] at h
    cases ha : QueryBuilder._assert_match b v with
    | error e => rw [ha] at h; exact absurd h (by simp)
    | ok u =>
        rw [ha] at h
        cases hk : selectPropsKeys v b._projections keys with
        | error e => rw [hk] at h; exact absurd h (by simp)
        | ok projections =>
            rw [hk] at h
            have hb1 : b1 = { b with _projections := projections } := by
              cases h; rfl
            rw [hb1]
            exact select_ignores_prior_projections b projections fields
  · intro b fields projs h
    simp [QueryBuilder.select, h]
  · intro b h
    simp [QueryBuilder._build, h]

/-- C6 witness: on a builder with one declared variable, a second `select`
overrides the projections installed by a first `select` and by a node
scope `select`, and a fresh builder with one match builds the default
whole-entity projection list. -/
theorem select_projection_spec_witness :
    QueryBuilder.select { QueryBuilder.new with
        _matches := [⟨"n0", some "Person"⟩],
        _projections := [.propP "n0" "name" none] } [.str "n0"] =
      QueryBuilder.select { QueryBuilder.new with _matches := [⟨"n0", some "Person"⟩] }
        [.str "n0"]
    ∧ QueryBuilder.select { QueryBuilder.new with _matches := [⟨"n0", some "Person"⟩] }
        [.str "n0"] =
      .ok { QueryBuilder.new with
              _matches := [⟨"n0", some "Person"⟩],
              _projections := [.varP "n0" none] }
    ∧ (QueryBuilder._build { QueryBuilder.new with
        _matches := [⟨"n0", some "Person"⟩, ⟨"n1", none⟩] }).projections =
      [.varP "n0" none, .varP "n1" none] := by
  refine ⟨select_projection_spec.1 { QueryBuilder.new with
      _matches := [⟨"n0", some "Person"⟩] } [.propP "n0" "name" none] [.str "n0"], ?_, ?_⟩
  · exact select_projection_spec.2.2.1 { QueryBuilder.new with
      _matches := [⟨"n0", some "Person"⟩] } [.str "n0"] [.varP "n0" none] rfl
  · exact select_projection_spec.2.2.2 { QueryBuilder.new with
      _matches := [⟨"n0", some "Person"⟩, ⟨"n1", none⟩] } rfl

/-- C7: appending a top-level predicate with combinator `and`
(respectively `or`) to a builder whose current root predicate is already
an `and` (respectively `or`) node flattens the new predicate into that
node's argument list; when the current root has a different operator, the
prior predicate and the new one become the two arguments of a fresh node
of the requested combinator; and the first appended predicate becomes the
root unchanged. -/
theorem append_predicate_spec :
    (∀ (b : QueryBuilder) (e : Pred) (comb : String), b._predicate = none →
      b._append_predicate e comb = .ok { b with _predicate := some e })
    ∧ (∀ (b : QueryBuilder) (e : Pred) (args : List Pred),
      b._predicate = some (.group "and" args) →
      b._append_predicate e "and" =
        .ok { b with _predicate := some (.group "and" (args ++ [e])) })
    ∧ (∀ (b : QueryBuilder) (e : Pred) (args : List Pred),
      b._predicate = some (.group "or" args) →
      b._append_predicate e "or" =
        .ok { b with _predicate := some (.group "or" (args ++ [e])) })
    ∧ (∀ (b : QueryBuilder) (e p : Pred), b._predicate = some p → p.predOp ≠ "and" →
      b._append_predicate e "and" =
        .ok { b with _predicate := some (.group "and" [p, e]) })
    ∧ (∀ (b : QueryBuilder) (e p : Pred), b._predicate = some p → p.predOp ≠ "or" →
      b._append_predicate e "or" =
        .ok { b with _predicate := some (.group "or" [p, e]) }) := by
  refine ⟨?_, ?_, ?_, ?_, ?_⟩
  · intro b e comb h
    simp [QueryBuilder._append_predicate, h]
  · intro b e args h
    simp [QueryBuilder._append_predicate, h, Pred.predOp, Pred.groupArgs]
  · intro b e args h
    simp [QueryBuilder._append_predicate, h, Pred.predOp, Pred.groupArgs]
  · intro b e p h hop
    simp [QueryBuilder._append_predicate, h, hop]
  · intro b e p h hop
    simp [QueryBuilder._append_predicate, h, hop]

/-- C7 witness: the combinator rules applied to concrete predicates — a
first predicate becomes the root, an `and` root flattens, and a leaf root
is wrapped when `or` is requested. -/
theorem append_predicate_spec_witness :
    QueryBuilder._append_predicate QueryBuilder.new
        (.leaf "eq" "n0" "name" (.value (.stringT "a"))) "and" =
      .ok { QueryBuilder.new with
              _predicate := some (.leaf "eq" "n0" "name" (.value (.stringT "a"))) }
    ∧ QueryBuilder._append_predicate
        { QueryBuilder.new with
            _predicate := some (.group "and" [.leaf "eq" "n0" "name" (.value (.stringT "a"))]) }
        (.leaf "exists" "n0" "age" .nothing) "and" =
      .ok { QueryBuilder.new with
              _predicate := some (.group "and"
                [.leaf "eq" "n0" "name" (.value (.stringT "a")),
                 .leaf "exists" "n0" "age" .nothing]) }
    ∧ QueryBuilder._append_predicate
        { QueryBuilder.new with
            _predicate := some (.leaf "eq" "n0" "name" (.value (.stringT "a"))) }
        (.leaf "exists" "n0" "age" .nothing) "or" =
      .ok { QueryBuilder.new with
              _predicate := some (.group "or"
                [.leaf "eq" "n0" "name" (.value (.stringT "a")),
                 .leaf "exists" "n0" "age" .nothing]) } :=
  ⟨append_predicate_spec.1 QueryBuilder.new
      (.leaf "eq" "n0" "name" (.value (.stringT "a"))) "and" rfl,
   append_predicate_spec.2.1
     { QueryBuilder.new with
         _predicate := some (.group "and" [.leaf "eq" "n0" "name" (.value (.stringT "a"))]) }
     (.leaf "exists" "n0" "age" .nothing)
     [.leaf "eq" "n0" "name" (.value (.stringT "a"))] rfl,
   append_predicate_spec.2.2.2.2
     { QueryBuilder.new with
         _predicate := some (.leaf "eq" "n0" "name" (.value (.stringT "a"))) }
     (.leaf "exists" "n0" "age" .nothing)
     (.leaf "eq" "n0" "name" (.value (.stringT "a"))) rfl (by simp [Pred.predOp])⟩

/-- When no non-null entry exists, every pair of non-null entries agrees
vacuously. -/
theorem tagsAgree_of_find_none (ts : List Tagged)
    (hf : ts.find? (fun entry => entry.tag ≠ "Null") = none) :
    ∀ t1 ∈ ts, ∀ t2 ∈ ts, t1.tag ≠ "Null" → t2.tag ≠ "Null" → t1.tag = t2.tag := by
  intro t1 h1 t2 h2 hn1 hn2
  have := List.find?_eq_none.mp hf t1 h1
  simp at this
  exact absurd this hn1

/-- With `ex` the first non-null entry, the source's `all` check is
equivalent to pairwise tag agreement of the non-null entries. -/
theorem all_share_iff (ts : List Tagged) (ex : Tagged)
    (hf : ts.find? (fun entry => entry.tag ≠ "Null") = some ex) :
    (ts.all (fun entry => entry.tag = "Null" ∨ entry.tag = ex.tag) = true) ↔
      ∀ t1 ∈ ts, ∀ t2 ∈ ts, t1.tag ≠ "Null" → t2.tag ≠ "Null" → t1.tag = t2.tag := by
  have hex_mem : ex ∈ ts := List.mem_of_find?_eq_some hf
  have hex_tag : ex.tag ≠ "Null" := by
    have := List.find?_some hf
    simpa using this
  rw [List.all_eq_true]
  constructor
  · intro hall t1 h1 t2 h2 hn1 hn2
    have e1 := hall t1 h1
    have e2 := hall t2 h2
    simp only [decide_eq_true_eq] at e1 e2
    rcases e1 with e1 | e1
    · exact absurd e1 hn1
    · rcases e2 with e2 | e2
      · exact absurd e2 hn2
      · rw [e1, e2]
  · intro hagree t ht
    simp only [decide_eq_true_eq]
    by_cases hn : t.tag = "Null"
    · exact Or.inl hn
    · exact Or.inr (hagree t ht ex hex_mem hn hex_tag)

/-- `checkTags` succeeds exactly when all non-null entries share one
tag. -/
theorem checkTags_ok_iff (ts : List Tagged) :
    checkTags ts = .ok () ↔
      ∀ t1 ∈ ts, ∀ t2 ∈ ts, t1.tag ≠ "Null" → t2.tag ≠ "Null" → t1.tag = t2.tag := by
  unfold checkTags
  split
  · rename_i hf
    exact iff_of_true rfl (tagsAgree_of_find_none ts hf)
  · rename_i ex hf
    split
    · rename_i hall
      exact iff_of_true rfl ((all_share_iff ts ex hf).mp hall)
    · rename_i hall
      refine iff_of_false (by simp) ?_
      intro hagree
      exact hall ((all_share_iff ts ex hf).mpr hagree)

/-- `checkTags` either succeeds or fails with the homogeneity message. -/
theorem checkTags_cases (ts : List Tagged) :
    checkTags ts = .ok () ∨
      checkTags ts = .error "in_() requires all literals to share the same type" := by
  unfold checkTags
  split
  · exact Or.inl rfl
  · split
    · exact Or.inl rfl
    · exact Or.inr rfl

/-- C8: `in_` fails on an empty literal sequence; on a non-empty sequence
whose entries all encode, it fails exactly when two non-null literals
carry different tags, and otherwise appends the membership predicate
carrying the tagged literals in input order; the `in_list` conversion path
obeys the same homogeneity rule. -/
theorem in_membership_spec :
    (∀ (pb : PredicateBuilder) (prop : String),
      PredicateBuilder.in_ pb prop [] = .error "in_() requires at least one literal")
    ∧ (∀ (pb : PredicateBuilder) (prop : String) (values : List PyVal) (ts : List Tagged),
      pb._sealed = false → pyStrip prop ≠ "" → values ≠ [] →
      encodeAll values = .ok ts →
      (PredicateBuilder.in_ pb prop values =
          .ok ⟨pb._var, pb._mode, pb._exprs ++ [.leaf "in" pb._var prop (.values ts)], false⟩ ↔
        ∀ t1 ∈ ts, ∀ t2 ∈ ts, t1.tag ≠ "Null" → t2.tag ≠ "Null" → t1.tag = t2.tag))
    ∧ (∀ (pb : PredicateBuilder) (prop : String) (values : List PyVal) (ts : List Tagged),
      pb._sealed = false → pyStrip prop ≠ "" → values ≠ [] →
      encodeAll values = .ok ts →
      (PredicateBuilder.in_ pb prop values =
          .error "in_() requires all literals to share the same type" ↔
        ¬∀ t1 ∈ ts, ∀ t2 ∈ ts, t1.tag ≠ "Null" → t2.tag ≠ "Null" → t1.tag = t2.tag))
    ∧ (∀ (values : List PyVal) (ts : List Tagged), encodeAll values = .ok ts →
      (_convert_in_list_values values = .ok ts ↔
        ∀ t1 ∈ ts, ∀ t2 ∈ ts, t1.tag ≠ "Null" → t2.tag ≠ "Null" → t1.tag = t2.tag)) := by
  refine ⟨?_, ?_, ?_, ?_⟩
  · intro pb prop
    rfl
  · intro pb prop values ts hseal hprop hne henc
    have hempty : values.isEmpty = false := by
      cases values with
      | nil => exact absurd rfl hne
      | cons v vs => rfl
    have hnorm : _normalize_prop_name prop = .ok prop := by
      simp [_normalize_prop_name, hprop]
    rw [← checkTags_ok_iff]
    simp only [PredicateBuilder.in_, hempty, Bool.false_eq_true, if_false, ite_false, henc]
    cases hck : checkTags ts with
    | error e =>
        constructor
        · intro h
          exact absurd h (by simp)
        · intro h
          exact absurd h (by simp)
    | ok u =>
        cases u
        simp only [hnorm, hseal, Bool.false_eq_true, if_false, ite_false]
  · intro pb prop values ts hseal hprop hne henc
    have hempty : values.isEmpty = false := by
      cases values with
      | nil => exact absurd rfl hne
      | cons v vs => rfl
    have hnorm : _normalize_prop_name prop = .ok prop := by
      simp [_normalize_prop_name, hprop]
    simp only [PredicateBuilder.in_, hempty, Bool.false_eq_true, if_false, ite_false, henc]
    rcases checkTags_cases ts with hck | hck
    · have hagree := (checkTags_ok_iff ts).mp hck
      rw [hck]
      simp only [hnorm, hseal, Bool.false_eq_true, if_false, ite_false]
      constructor
      · intro h
        exact absurd h (by simp)
      · intro h
        exact absurd hagree h
    · have hnagree : ¬∀ t1 ∈ ts, ∀ t2 ∈ ts,
          t1.tag ≠ "Null" → t2.tag ≠ "Null" → t1.tag = t2.tag := by
        intro hagree
        rw [(checkTags_ok_iff ts).mpr hagree] at hck
        exact absurd hck (by simp)
      rw [hck]
      exact iff_of_true rfl hnagree
  · intro values ts henc
    rw [← checkTags_ok_iff]
    simp only [_convert_in_list_values, henc, checkTags]
    cases hf : ts.find? (fun entry => entry.tag ≠ "Null") with
    | none => simp
    | some ex =>
        by_cases hall : ts.all (fun entry => entry.tag = "Null" ∨ entry.tag = ex.tag) = true
        · simp [hall]
        · simp [hall]

/-- C8 witness: the membership theorem applied to an empty sequence, a
homogeneous Int sequence with an interleaved null, a mixed Int/String
sequence, and the `in_list` conversion path. -/
theorem in_membership_spec_witness :
    PredicateBuilder.in_ (PredicateBuilder.new "n0") "age" [] =
      .error "in_() requires at least one literal"
    ∧ PredicateBuilder.in_ (PredicateBuilder.new "n0") "age" [.vint 1, .vnone, .vint 2] =
      .ok ⟨"n0", "and", [.leaf "in" "n0" "age" (.values [.intT 1, .nullT, .intT 2])], false⟩
    ∧ PredicateBuilder.in_ (PredicateBuilder.new "n0") "age" [.vint 1, .vstr "x"] =
      .error "in_() requires all literals to share the same type"
    ∧ _convert_in_list_values [.vint 1, .vnone] = .ok [.intT 1, .nullT] :=
  ⟨in_membership_spec.1 (PredicateBuilder.new "n0") "age",
   (in_membership_spec.2.1 (PredicateBuilder.new "n0") "age" [.vint 1, .vnone, .vint 2]
      [.intT 1, .nullT, .intT 2] rfl (by decide) (by decide) rfl).mpr (by decide),
   (in_membership_spec.2.2.1 (PredicateBuilder.new "n0") "age" [.vint 1, .vstr "x"]
      [.intT 1, .stringT "x"] rfl (by decide) (by decide) rfl).mpr (by decide),
   (in_membership_spec.2.2.2 [.vint 1, .vnone] [.intT 1, .nullT] rfl).mpr (by decide)⟩

/-- C9: `close()` on a query stream is idempotent and terminal: closing a
closed stream is the identity — it raises nothing, changes nothing and
performs no further native close call; after any close (explicit,
finalizer, or triggered by the end-of-rows marker inside `__anext__`) the
stream is closed, and pulling from a closed stream yields no row and
leaves the state untouched, so iteration ends immediately and stays
ended; pulling an open, exhausted stream yields no row and closes the
stream. -/
theorem stream_close_spec :
    (∀ (ρ : Type) (hasCloseFn : Bool) (s : StreamState ρ), s.closed = true →
      QueryStream.close hasCloseFn s = s)
    ∧ (∀ (ρ : Type) (hasCloseFn : Bool) (s : StreamState ρ),
      QueryStream.close hasCloseFn (QueryStream.close hasCloseFn s) =
        QueryStream.close hasCloseFn s)
    ∧ (∀ (ρ : Type) (hasCloseFn : Bool) (s : StreamState ρ),
      (QueryStream.close hasCloseFn s).closed = true)
    ∧ (∀ (ρ : Type) (hasCloseFn : Bool) (s : StreamState ρ), s.closed = true →
      QueryStream.anext hasCloseFn s = (none, s))
    ∧ (∀ (ρ : Type) (hasCloseFn : Bool) (s : StreamState ρ), s.closed = false →
      s.rows = [] →
      (QueryStream.anext hasCloseFn s).1 = none
      ∧ ((QueryStream.anext hasCloseFn s).2).closed = true)
    ∧ (∀ (ρ : Type) (hasCloseFn : Bool) (s : StreamState ρ), s.closed = true →
      QueryStream.finalizerClose hasCloseFn s = s)
    ∧ (∀ (ρ : Type) (hasCloseFn : Bool) (s : StreamState ρ),
      QueryStream.close hasCloseFn (QueryStream.finalizerClose hasCloseFn s) =
        QueryStream.finalizerClose hasCloseFn s) := by
  refine ⟨?_, ?_, ?_, ?_, ?_, ?_, ?_⟩
  · intro ρ hasCloseFn s h
    simp [QueryStream.close, h]
  · intro ρ hasCloseFn s
    by_cases h : s.closed = true
    · simp [QueryStream.close, h]
    · have h' : s.closed = false := by simpa using h
      cases hc : hasCloseFn <;> simp [QueryStream.close, h', hc]
  · intro ρ hasCloseFn s
    by_cases h : s.closed = true
    · simp [QueryStream.close, h]
    · have h' : s.closed = false := by simpa using h
      cases hc : hasCloseFn <;> simp [QueryStream.close, h', hc]
  · intro ρ hasCloseFn s h
    simp [QueryStream.anext, h]
  · intro ρ hasCloseFn s h hrows
    cases hc : hasCloseFn <;>
      simp [QueryStream.anext, QueryStream.close, h, hrows, hc]
  · intro ρ hasCloseFn s h
    simp [QueryStream.finalizerClose, h]
  · intro ρ hasCloseFn s
    by_cases h : s.closed = true
    · simp [QueryStream.finalizerClose, QueryStream.close, h]
    · have h' : s.closed = false := by simpa using h
      cases hc : hasCloseFn <;>
        simp [QueryStream.finalizerClose, QueryStream.close, h', hc]

/-- C9 witness: the stream theorem applied to concrete open and closed
streams over `Nat` rows with the native close function present. -/
theorem stream_close_spec_witness :
    QueryStream.close true (StreamState.mk true [5] 1) = StreamState.mk true [5] 1
    ∧ QueryStream.anext true (StreamState.mk true [5] 1) =
      (none, StreamState.mk true [5] 1)
    ∧ (QueryStream.anext true (StreamState.mk (ρ := Nat) false [] 0)).1 = none
    ∧ ((QueryStream.anext true (StreamState.mk (ρ := Nat) false [] 0)).2).closed = true
    ∧ QueryStream.finalizerClose true (StreamState.mk (ρ := Nat) true [] 1) =
      StreamState.mk true [] 1 :=
  ⟨stream_close_spec.1 Nat true (StreamState.mk true [5] 1) rfl,
   stream_close_spec.2.2.2.1 Nat true (StreamState.mk true [5] 1) rfl,
   (stream_close_spec.2.2.2.2.1 Nat true (StreamState.mk false [] 0) rfl rfl).1,
   (stream_close_spec.2.2.2.2.1 Nat true (StreamState.mk false [] 0) rfl rfl).2,
   stream_close_spec.2.2.2.2.2.1 Nat true (StreamState.mk true [] 1) rfl⟩

end Sombra
